import Mathlib

/-!
Shallow embedding of the heuristic-evaluation core of the
`ruxailab/ai-heuristic-evaluation` repository.

Sources embedded:
- `app/core/constants.py` (`SeverityLevel`, `HeuristicId`, `NIELSEN_HEURISTICS`)
- `app/services/heuristic_engine.py` (`HeuristicViolation`, `HeuristicScore`,
  `calculate_score`, `_evaluate_with_llm` response parsing, `evaluate_heuristic`,
  `evaluate_interface`)
- `app/services/rag_knowledge_base.py` (`KnowledgeEntry` data,
  `retrieve_relevant_context`)

Modelling conventions:
- Python dicts with string keys are association lists looked up by `find?`.
- Python exceptions are `Except String`; a raised `ValueError` is `.error`.
- The external LLM call is an opaque parameter `classify`; its outcome is
  `Except String PyJson` (`.error` = the call raised or its payload was not
  JSON, both of which raise inside the same `try` block in the source;
  `.ok` = the payload parsed at top level).
- Python floats are modelled as `ℚ`; `round(x, 2)` is round-half-to-even on
  exact rationals (`pyRound2`).
- Apostrophes occurring in source string literals are written `\x27`.
-/

namespace AIHeur

/-- `SeverityLevel` enum from `app/core/constants.py`. -/
inductive SeverityLevel where
  | critical
  | major
  | minor
  | cosmetic
deriving DecidableEq

/-- The `.value` string of each `SeverityLevel` member. -/
def SeverityLevel.value : SeverityLevel → String
  | .critical => "critical"
  | .major => "major"
  | .minor => "minor"
  | .cosmetic => "cosmetic"

/-- `HeuristicId` enum from `app/core/constants.py`. -/
inductive HeuristicId where
  | H1_VISIBILITY_OF_SYSTEM_STATUS
  | H2_MATCH_BETWEEN_SYSTEM_AND_REAL_WORLD
  | H3_USER_CONTROL_AND_FREEDOM
  | H4_CONSISTENCY_AND_STANDARDS
  | H5_ERROR_PREVENTION
  | H6_RECOGNITION_RATHER_THAN_RECALL
  | H7_FLEXIBILITY_AND_EFFICIENCY_OF_USE
  | H8_AESTHETIC_AND_MINIMALIST_DESIGN
  | H9_HELP_USERS_RECOGNIZE_RECOVER_FROM_ERRORS
  | H10_HELP_AND_DOCUMENTATION
deriving DecidableEq

/-- The `.value` string of each `HeuristicId` member. -/
def HeuristicId.value : HeuristicId → String
  | .H1_VISIBILITY_OF_SYSTEM_STATUS => "H1"
  | .H2_MATCH_BETWEEN_SYSTEM_AND_REAL_WORLD => "H2"
  | .H3_USER_CONTROL_AND_FREEDOM => "H3"
  | .H4_CONSISTENCY_AND_STANDARDS => "H4"
  | .H5_ERROR_PREVENTION => "H5"
  | .H6_RECOGNITION_RATHER_THAN_RECALL => "H6"
  | .H7_FLEXIBILITY_AND_EFFICIENCY_OF_USE => "H7"
  | .H8_AESTHETIC_AND_MINIMALIST_DESIGN => "H8"
  | .H9_HELP_USERS_RECOGNIZE_RECOVER_FROM_ERRORS => "H9"
  | .H10_HELP_AND_DOCUMENTATION => "H10"

/-- Python `HeuristicId(s)`: member lookup by value; `none` models the
`ValueError` the enum constructor raises for an unknown value. -/
def HeuristicId.ofValue? : String → Option HeuristicId
  | "H1" => some .H1_VISIBILITY_OF_SYSTEM_STATUS
  | "H2" => some .H2_MATCH_BETWEEN_SYSTEM_AND_REAL_WORLD
  | "H3" => some .H3_USER_CONTROL_AND_FREEDOM
  | "H4" => some .H4_CONSISTENCY_AND_STANDARDS
  | "H5" => some .H5_ERROR_PREVENTION
  | "H6" => some .H6_RECOGNITION_RATHER_THAN_RECALL
  | "H7" => some .H7_FLEXIBILITY_AND_EFFICIENCY_OF_USE
  | "H8" => some .H8_AESTHETIC_AND_MINIMALIST_DESIGN
  | "H9" => some .H9_HELP_USERS_RECOGNIZE_RECOVER_FROM_ERRORS
  | "H10" => some .H10_HELP_AND_DOCUMENTATION
  | _ => none

/-- One entry of a `measurable_criteria` list in `NIELSEN_HEURISTICS`. -/
structure Criterion where
  id : String
  description : String
  evaluation : String
  severity_weights : List (String × Nat)
deriving DecidableEq

/-- One value of the `NIELSEN_HEURISTICS` dict. -/
structure HeuristicDef where
  name : String
  description : String
  measurable_criteria : List Criterion
deriving DecidableEq

/-- Python `dict.get(key, default)` on a severity-weight table. -/
def weightsGet (weights : List (String × Nat)) (key : String) (default : Nat) : Nat :=
  match weights.find? (fun p => decide (p.1 = key)) with
  | some p => p.2
  | none => default

/-- `NIELSEN_HEURISTICS[HeuristicId.H1_VISIBILITY_OF_SYSTEM_STATUS]`. -/
def h1_def : HeuristicDef :=
  { name := "Visibility of System Status",
    description := "The design should always keep users informed about what is going on, through appropriate feedback within a reasonable amount of time.",
    measurable_criteria := [
      { id := "H1.1", description := "Loading states visible",
        evaluation := "Check if loading indicators are present during async operations",
        severity_weights := [("critical", 10), ("major", 5), ("minor", 2), ("cosmetic", 1)] },
      { id := "H1.2", description := "System feedback for user actions",
        evaluation := "Verify visual/audio feedback for button clicks, form submissions, etc.",
        severity_weights := [("critical", 10), ("major", 6), ("minor", 3), ("cosmetic", 1)] },
      { id := "H1.3", description := "Progress indicators for multi-step processes",
        evaluation := "Check for progress bars, step counters in wizards, forms, checkouts",
        severity_weights := [("critical", 8), ("major", 5), ("minor", 2), ("cosmetic", 1)] }
    ] }

/-- `NIELSEN_HEURISTICS[HeuristicId.H2_MATCH_BETWEEN_SYSTEM_AND_REAL_WORLD]`. -/
def h2_def : HeuristicDef :=
  { name := "Match Between System and Real World",
    description := "The design should speak the users\x27 language. Use words, phrases, and concepts familiar to the user, rather than internal jargon.",
    measurable_criteria := [
      { id := "H2.1", description := "Use of familiar icons and metaphors",
        evaluation := "Icons should match real-world conventions (house for home, gear for settings)",
        severity_weights := [("critical", 8), ("major", 5), ("minor", 3), ("cosmetic", 1)] },
      { id := "H2.2", description := "Natural language instead of technical terms",
        evaluation := "User-facing text uses everyday language, not technical jargon",
        severity_weights := [("critical", 6), ("major", 4), ("minor", 2), ("cosmetic", 1)] },
      { id := "H2.3", description := "Information organization follows user mental models",
        evaluation := "Content grouped logically from user\x27s perspective",
        severity_weights := [("critical", 10), ("major", 6), ("minor", 3), ("cosmetic", 1)] }
    ] }

/-- `NIELSEN_HEURISTICS[HeuristicId.H3_USER_CONTROL_AND_FREEDOM]`. -/
def h3_def : HeuristicDef :=
  { name := "User Control and Freedom",
    description := "Users often perform actions by mistake. They need a clearly marked \x27emergency exit\x27 to leave the action without having to go through an extended process.",
    measurable_criteria := [
      { id := "H3.1", description := "Undo/redo functionality available",
        evaluation := "Users can reverse actions easily (back button, cancel, undo)",
        severity_weights := [("critical", 10), ("major", 7), ("minor", 3), ("cosmetic", 1)] },
      { id := "H3.2", description := "Clear navigation exit points",
        evaluation := "Users can exit processes without being trapped",
        severity_weights := [("critical", 10), ("major", 7), ("minor", 3), ("cosmetic", 1)] },
      { id := "H3.3", description := "Confirmation for destructive actions",
        evaluation := "Delete/remove actions have confirmation dialogs",
        severity_weights := [("critical", 10), ("major", 6), ("minor", 2), ("cosmetic", 1)] }
    ] }

/-- `NIELSEN_HEURISTICS[HeuristicId.H4_CONSISTENCY_AND_STANDARDS]`. -/
def h4_def : HeuristicDef :=
  { name := "Consistency and Standards",
    description := "Users should not have to wonder whether different words, situations, or actions mean the same thing. Follow platform and industry conventions.",
    measurable_criteria := [
      { id := "H4.1", description := "Consistent button dimensions",
        evaluation := "Buttons of the same type (primary, secondary) should have uniform width/height",
        severity_weights := [("critical", 6), ("major", 4), ("minor", 2), ("cosmetic", 1)] },
      { id := "H4.2", description := "Consistent typography",
        evaluation := "Similar elements (headings, body text, labels) use consistent font sizes and styles",
        severity_weights := [("critical", 6), ("major", 4), ("minor", 2), ("cosmetic", 1)] },
      { id := "H4.3", description := "Consistent color usage",
        evaluation := "Same colors used for same purposes (e.g., primary action buttons same color)",
        severity_weights := [("critical", 8), ("major", 5), ("minor", 2), ("cosmetic", 1)] },
      { id := "H4.4", description := "Consistent terminology",
        evaluation := "Same terms used for same actions across the interface (not mix of Save/Submit, Delete/Remove)",
        severity_weights := [("critical", 8), ("major", 5), ("minor", 3), ("cosmetic", 1)] },
      { id := "H4.5", description := "Platform conventions followed",
        evaluation := "UI follows established platform patterns (navigation placement, icon usage)",
        severity_weights := [("critical", 10), ("major", 6), ("minor", 3), ("cosmetic", 1)] }
    ] }

/-- `NIELSEN_HEURISTICS[HeuristicId.H5_ERROR_PREVENTION]`. -/
def h5_def : HeuristicDef :=
  { name := "Error Prevention",
    description := "Even better than good error messages is a careful design which prevents a problem from occurring in the first place.",
    measurable_criteria := [
      { id := "H5.1", description := "Input validation before submission",
        evaluation := "Form fields validate input format before allowing submission (email, phone, required fields)",
        severity_weights := [("critical", 10), ("major", 6), ("minor", 3), ("cosmetic", 1)] },
      { id := "H5.2", description := "Constraints on input fields",
        evaluation := "Input fields have appropriate constraints (max length, input type, allowed characters)",
        severity_weights := [("critical", 8), ("major", 5), ("minor", 2), ("cosmetic", 1)] },
      { id := "H5.3", description := "Confirmation for high-risk actions",
        evaluation := "Irreversible or significant actions require explicit confirmation",
        severity_weights := [("critical", 10), ("major", 7), ("minor", 3), ("cosmetic", 1)] },
      { id := "H5.4", description := "Default values and suggestions",
        evaluation := "Fields provide sensible defaults or suggestions to reduce user errors",
        severity_weights := [("critical", 4), ("major", 3), ("minor", 2), ("cosmetic", 1)] },
      { id := "H5.5", description := "Disable invalid options",
        evaluation := "Options that are not available are disabled rather than hidden, preventing confusion",
        severity_weights := [("critical", 6), ("major", 4), ("minor", 2), ("cosmetic", 1)] }
    ] }

/-- `NIELSEN_HEURISTICS[HeuristicId.H6_RECOGNITION_RATHER_THAN_RECALL]`. -/
def h6_def : HeuristicDef :=
  { name := "Recognition Rather Than Recall",
    description := "Minimize the user\x27s memory load by making objects, actions, and options visible. The user should not have to remember information from one part of the dialogue to another.",
    measurable_criteria := [
      { id := "H6.1", description := "Menu options visible",
        evaluation := "Important navigation and actions are visible or easily retrievable without memory load",
        severity_weights := [("critical", 8), ("major", 5), ("minor", 3), ("cosmetic", 1)] },
      { id := "H6.2", description := "Contextual help",
        evaluation := "Instructions or help text is visible in context when relevant",
        severity_weights := [("critical", 6), ("major", 4), ("minor", 2), ("cosmetic", 1)] }
    ] }

/-- `NIELSEN_HEURISTICS[HeuristicId.H7_FLEXIBILITY_AND_EFFICIENCY_OF_USE]`. -/
def h7_def : HeuristicDef :=
  { name := "Flexibility and Efficiency of Use",
    description := "Accelerators—unseen by the novice user—may often speed up the interaction for the expert user such that the system can cater to both inexperienced and experienced users.",
    measurable_criteria := [
      { id := "H7.1", description := "Shortcuts and accelerators",
        evaluation := "Keyboard shortcuts or quick actions available for frequent tasks",
        severity_weights := [("critical", 4), ("major", 3), ("minor", 2), ("cosmetic", 1)] },
      { id := "H7.2", description := "Customization options",
        evaluation := "Users can tailor frequent actions or views to their needs",
        severity_weights := [("critical", 4), ("major", 3), ("minor", 2), ("cosmetic", 1)] }
    ] }

/-- `NIELSEN_HEURISTICS[HeuristicId.H8_AESTHETIC_AND_MINIMALIST_DESIGN]`. -/
def h8_def : HeuristicDef :=
  { name := "Aesthetic and Minimalist Design",
    description := "Dialogues should not contain information which is irrelevant or rarely needed. Every extra unit of information in a dialogue competes with the relevant units of information.",
    measurable_criteria := [
      { id := "H8.1", description := "Minimalist layout",
        evaluation := "Visual layout is not cluttered; white space is used effectively",
        severity_weights := [("critical", 6), ("major", 4), ("minor", 2), ("cosmetic", 1)] },
      { id := "H8.2", description := "High signal-to-noise ratio",
        evaluation := "Content is focused on the user\x27s current task; irrelevant info is removed",
        severity_weights := [("critical", 6), ("major", 4), ("minor", 2), ("cosmetic", 1)] }
    ] }

/-- `NIELSEN_HEURISTICS[HeuristicId.H9_HELP_USERS_RECOGNIZE_RECOVER_FROM_ERRORS]`. -/
def h9_def : HeuristicDef :=
  { name := "Help Users Recognize, Diagnose, and Recover from Errors",
    description := "Error messages should be expressed in plain language (no codes), precisely indicate the problem, and constructively suggest a solution.",
    measurable_criteria := [
      { id := "H9.1", description := "Plain language errors",
        evaluation := "Error messages use human-readable language, not codes",
        severity_weights := [("critical", 10), ("major", 6), ("minor", 3), ("cosmetic", 1)] },
      { id := "H9.2", description := "Constructive solutions",
        evaluation := "Errors suggest how to fix the problem, not just what went wrong",
        severity_weights := [("critical", 10), ("major", 7), ("minor", 3), ("cosmetic", 1)] }
    ] }

/-- `NIELSEN_HEURISTICS[HeuristicId.H10_HELP_AND_DOCUMENTATION]`. -/
def h10_def : HeuristicDef :=
  { name := "Help and Documentation",
    description := "Even though it is better if the system can be used without documentation, it may be necessary to provide help and documentation.",
    measurable_criteria := [
      { id := "H10.1", description := "Easy to search help",
        evaluation := "Help documentation is easy to search and navigate",
        severity_weights := [("critical", 6), ("major", 4), ("minor", 2), ("cosmetic", 1)] },
      { id := "H10.2", description := "Task-focused documentation",
        evaluation := "Documentation focuses on user tasks and concrete steps",
        severity_weights := [("critical", 6), ("major", 4), ("minor", 2), ("cosmetic", 1)] }
    ] }

/-- The `NIELSEN_HEURISTICS` dict from `app/core/constants.py`, as an
association list in declaration order. -/
def NIELSEN_HEURISTICS : List (HeuristicId × HeuristicDef) :=
  [(.H1_VISIBILITY_OF_SYSTEM_STATUS, h1_def),
   (.H2_MATCH_BETWEEN_SYSTEM_AND_REAL_WORLD, h2_def),
   (.H3_USER_CONTROL_AND_FREEDOM, h3_def),
   (.H4_CONSISTENCY_AND_STANDARDS, h4_def),
   (.H5_ERROR_PREVENTION, h5_def),
   (.H6_RECOGNITION_RATHER_THAN_RECALL, h6_def),
   (.H7_FLEXIBILITY_AND_EFFICIENCY_OF_USE, h7_def),
   (.H8_AESTHETIC_AND_MINIMALIST_DESIGN, h8_def),
   (.H9_HELP_USERS_RECOGNIZE_RECOVER_FROM_ERRORS, h9_def),
   (.H10_HELP_AND_DOCUMENTATION, h10_def)]

/-- Python `NIELSEN_HEURISTICS.get(hid)`. -/
def catalogueGet (hid : HeuristicId) : Option HeuristicDef :=
  (NIELSEN_HEURISTICS.find? (fun p => decide (p.1 = hid))).map (·.2)

/-- The definition each catalogue key maps to (used to phrase theorems). -/
def nielsenDef : HeuristicId → HeuristicDef
  | .H1_VISIBILITY_OF_SYSTEM_STATUS => h1_def
  | .H2_MATCH_BETWEEN_SYSTEM_AND_REAL_WORLD => h2_def
  | .H3_USER_CONTROL_AND_FREEDOM => h3_def
  | .H4_CONSISTENCY_AND_STANDARDS => h4_def
  | .H5_ERROR_PREVENTION => h5_def
  | .H6_RECOGNITION_RATHER_THAN_RECALL => h6_def
  | .H7_FLEXIBILITY_AND_EFFICIENCY_OF_USE => h7_def
  | .H8_AESTHETIC_AND_MINIMALIST_DESIGN => h8_def
  | .H9_HELP_USERS_RECOGNIZE_RECOVER_FROM_ERRORS => h9_def
  | .H10_HELP_AND_DOCUMENTATION => h10_def

/-- `HeuristicViolation` value object from `app/services/heuristic_engine.py`. -/
structure HeuristicViolation where
  heuristic_id : String
  criterion_id : String
  severity : SeverityLevel
  description : String
  affected_elements : List String
  recommendation : String
deriving DecidableEq

/-- The loop body of `calculate_score` (lines 313-327): one pass over the
violations accumulating `total_deduction` and `explanation_parts`. -/
def scoreLoop (heuristic_def : HeuristicDef) (violations : List HeuristicViolation) :
    Nat × List String :=
  violations.foldl
    (fun acc violation =>
      match heuristic_def.measurable_criteria.find?
          (fun c => decide (c.id = violation.criterion_id)) with
      | some criterion =>
          (acc.1 + weightsGet criterion.severity_weights violation.severity.value 1,
           acc.2 ++ [violation.severity.value ++ ": " ++ violation.description])
      | none => acc)
    (0, [])

/-- Lines 329-332 of `calculate_score`: final score and explanation string. -/
def scoreCore (violations : List HeuristicViolation) (heuristic_def : HeuristicDef) :
    Int × String :=
  let acc := scoreLoop heuristic_def violations
  let score : Int := max 0 (100 - (acc.1 : Int))
  (score,
   "Score " ++ toString score ++ "/100 - " ++ toString violations.length ++
     " violations: " ++ String.intercalate "; " acc.2)

/-- `HeuristicEvaluationEngine.calculate_score`. The string argument is first
converted with `HeuristicId(heuristic_id)`, which raises `ValueError`
(modelled as `.error`) for a value that is not one of the ten members. -/
def calculate_score (violations : List HeuristicViolation) (heuristic_id : String) :
    Except String (Int × String) :=
  match HeuristicId.ofValue? heuristic_id with
  | none => .error ("ValueError: " ++ heuristic_id ++ " is not a valid HeuristicId")
  | some hid =>
    match catalogueGet hid with
    | none => .ok (100, "No criteria defined")
    | some heuristic_def => .ok (scoreCore violations heuristic_def)

/-- Total deduction as the specification words it: the sum, over violations
whose `criterion_id` exactly matches a criterion of the heuristic, of that
criterion\x27s severity weight (default 1 when the severity key is absent). -/
def totalDeductionSpec (violations : List HeuristicViolation)
    (heuristic_def : HeuristicDef) : Nat :=
  (violations.map (fun v =>
    match heuristic_def.measurable_criteria.find?
        (fun c => decide (c.id = v.criterion_id)) with
    | some c => weightsGet c.severity_weights v.severity.value 1
    | none => 0)).sum

/-- One entry of the RAG knowledge base (`rag_knowledge_base.py`). The
optional fields added by `add_expert_feedback` never affect retrieval and
are omitted. -/
structure KnowledgeEntry where
  id : String
  category : String
  content : String
  heuristic_id : String
  example_text : String
deriving DecidableEq

/-- The static seed corpus loaded by `_load_knowledge_base`. -/
def knowledge_data : List KnowledgeEntry :=
  [{ id := "kb_001", category := "Button Feedback",
     content := "Buttons should provide clear visual feedback on hover, active, and disabled states. This helps users understand interactability and system response.",
     heuristic_id := "H1",
     example_text := "A primary button changes to darker shade on hover and shows pressed state on click" },
   { id := "kb_002", category := "Error Prevention",
     content := "Destructive actions like delete should always be preceded by confirmation dialogs to prevent accidental data loss.",
     heuristic_id := "H3",
     example_text := "Delete button triggers modal: \x27Are you sure you want to delete this item? This action cannot be undone.\x27" },
   { id := "kb_003", category := "Form Labels",
     content := "All input fields must have visible labels or placeholders. Placeholders should complement, not replace labels.",
     heuristic_id := "H1",
     example_text := "Email field has label \x27Email Address\x27 and placeholder \x27you@example.com\x27" },
   { id := "kb_004", category := "User-Friendly Language",
     content := "Use action-oriented, conversational language that matches user expectations. Avoid technical jargon in user-facing text.",
     heuristic_id := "H2",
     example_text := "Use \x27Send Message\x27 instead of \x27Submit Payload\x27 or \x27Create Account\x27 instead of \x27Register User\x27" },
   { id := "kb_005", category := "Navigation",
     content := "Always provide a clear way to exit or cancel actions. Users should never feel trapped in the interface.",
     heuristic_id := "H3",
     example_text := "Multi-step wizard has Back button and Cancel option on all steps" },
   { id := "kb_006", category := "Consistency",
     content := "Users should not have to wonder whether different words, situations, or actions mean the same thing. Follow platform conventions.",
     heuristic_id := "H4",
     example_text := "Use standard platform icons (e.g., magnifying glass for search) and keep terminology consistent (e.g., don\x27t mix \x27Delete\x27 and \x27Remove\x27)" },
   { id := "kb_007", category := "Error Prevention",
     content := "Prevent errors from occurring in the first place by using constraints and good defaults.",
     heuristic_id := "H5",
     example_text := "Date picker disables past dates for flight departure; numeric fields reject alphabetic characters" },
   { id := "kb_008", category := "Recognition over Recall",
     content := "Minimize the user\x27s memory load by making objects, actions, and options visible. The user should not have to remember information from one part of the dialogue to another.",
     heuristic_id := "H6",
     example_text := "Search bar shows recent searches; Menu items are visible or easily accessible, not hidden deep in sub-menus" },
   { id := "kb_009", category := "Flexibility and Efficiency",
     content := "Accelerators — unseen by the novice user — may often speed up the interaction for the expert user.",
     heuristic_id := "H7",
     example_text := "Support keyboard shortcuts (Ctrl+S to save) and allow users to customize their dashboard layout" },
   { id := "kb_010", category := "Aesthetic and Minimalist Design",
     content := "Dialogues should not contain information which is irrelevant or rarely needed. Every extra unit of information competes with the relevant units.",
     heuristic_id := "H8",
     example_text := "Remove rarely used metadata from the main table view; use ample whitespace to group related elements" },
   { id := "kb_011", category := "Error Recovery",
     content := "Error messages should be expressed in plain language (no codes), precisely indicate the problem, and constructively suggest a solution.",
     heuristic_id := "H9",
     example_text := "Instead of \x27Error 503\x27, show \x27Connection failed. Please check your internet and Try Again\x27" },
   { id := "kb_012", category := "Help and Documentation",
     content := "Even though it is better if the system can be used without documentation, it may be necessary to provide help and documentation.",
     heuristic_id := "H10",
     example_text := "Provide contextual tooltips for complex settings and a searchable Help Center" }]

/-- Python `str.lower()` on the character-sequence view of a string (Python
strings are sequences of code points, modelled as `List Char`). -/
def lowerChars (s : String) : List Char :=
  s.data.map Char.toLower

/-- Python `str.lower()` returning a string. -/
def lowerString (s : String) : String :=
  ⟨lowerChars s⟩

/-- Python `str.split()` with no argument: split on whitespace runs,
dropping empty tokens. `acc` holds the current token reversed. -/
def splitWsAux : List Char → List Char → List (List Char)
  | [], acc => if acc.isEmpty then [] else [acc.reverse]
  | c :: cs, acc =>
    if c.isWhitespace then
      (if acc.isEmpty then [] else [acc.reverse]) ++ splitWsAux cs []
    else
      splitWsAux cs (c :: acc)

/-- Python `str.split()` with no argument. -/
def splitWs (s : List Char) : List (List Char) :=
  splitWsAux s []

/-- Whether `needle` is a prefix of `hay` (character-wise). -/
def charsStartWith : List Char → List Char → Bool
  | _, [] => true
  | [], _ :: _ => false
  | a :: as, b :: bs => a == b && charsStartWith as bs

/-- Python substring test `needle in hay`. -/
def hasSub : List Char → List Char → Bool
  | [], needle => needle.isEmpty
  | c :: rest, needle => charsStartWith (c :: rest) needle || hasSub rest needle

/-- Lines 130-134: `if heuristic_id:` pre-filter of the entry set. -/
def relevantEntries (entries : List KnowledgeEntry) (heuristic_id : Option String) :
    List KnowledgeEntry :=
  match heuristic_id with
  | some s =>
    if s.isEmpty then entries
    else entries.filter (fun e => decide (e.heuristic_id = s))
  | none => entries

/-- Lines 139-151: score of one entry against the query and filter. -/
def scoreEntry (query : String) (heuristic_id : Option String) (e : KnowledgeEntry) : Nat :=
  let tokens := splitWs (lowerChars query)
  let content := lowerChars e.content
  let category := lowerChars e.category
  (match heuristic_id with
   | some s => if !s.isEmpty && decide (e.heuristic_id = s) then 3 else 0
   | none => 0)
  + (if tokens.any (fun word => hasSub content word) then 2 else 0)
  + (if tokens.any (fun word => hasSub category word) then 1 else 0)

/-- Lines 139-154: entries paired with their scores, keeping only positive
scores, in original corpus order. -/
def scoredEntries (entries : List KnowledgeEntry) (query : String)
    (heuristic_id : Option String) : List (KnowledgeEntry × Nat) :=
  (relevantEntries entries heuristic_id).filterMap (fun e =>
    let s := scoreEntry query heuristic_id e
    if 0 < s then some (e, s) else none)

/-- The comparator of `scored_entries.sort(key=lambda x: x[1], reverse=True)`:
Python list.sort is a stable sort, and with `reverse=True` equal keys keep
their original relative order, which is exactly `mergeSort` with this `le`. -/
def scoreDescLe (a b : KnowledgeEntry × Nat) : Bool :=
  decide (b.2 ≤ a.2)

/-- `RAGKnowledgeBase.retrieve_relevant_context` (the corpus
`self.knowledge_entries` is passed explicitly). -/
def retrieve_relevant_context (entries : List KnowledgeEntry) (query : String)
    (heuristic_id : Option String) (top_k : Nat) : List KnowledgeEntry :=
  (((scoredEntries entries query heuristic_id).mergeSort scoreDescLe).take top_k).map (·.1)

/-- Minimal JSON value universe for modelling parsed classifier responses.
Numbers never influence the parsing paths under verification and are
modelled as integers. -/
inductive PyJson where
  | str (s : String)
  | num (n : Int)
  | bool (b : Bool)
  | null
  | arr (items : List PyJson)
  | obj (fields : List (String × PyJson))

/-- Python `key in parsed` / `parsed[key]` on a JSON object. -/
def objGet? (fields : List (String × PyJson)) (key : String) : Option PyJson :=
  (fields.find? (fun p => decide (p.1 = key))).map (·.2)

/-- The wrapper keys probed on lines 267-270. -/
def responseWrapperKeys : List String :=
  ["violations", "results", "findings", "issues"]

/-- Lines 263-270: if the parsed response is an object, take the value of the
first known wrapper key present, otherwise the parsed value itself. -/
def unwrapResponse (parsed : PyJson) : PyJson :=
  match parsed with
  | .obj fields =>
    match responseWrapperKeys.findSome? (fun key => objGet? fields key) with
    | some inner => inner
    | none => .obj fields
  | other => other

/-- Lines 281-287: case-insensitive severity mapping with default `MINOR`
for unrecognized strings. -/
def severityFromLower : String → SeverityLevel
  | "critical" => .critical
  | "major" => .major
  | "minor" => .minor
  | "cosmetic" => .cosmetic
  | _ => .minor

/-- Python `v_data.get(key, default)` where the parsing code then treats the
value as a string. A present non-string value makes the item raise inside
the per-item `try` (severity) or store an untyped payload the dataclass
declares as `str`; both are modelled as the item being skipped. -/
def jsonGetStr (fields : List (String × PyJson)) (key : String) (default : String) :
    Option String :=
  match objGet? fields key with
  | none => some default
  | some (.str s) => some s
  | some _ => none

/-- `affected_elements` payload: a JSON array of strings (default `[]`). -/
def jsonGetStrList (fields : List (String × PyJson)) (key : String) :
    Option (List String) :=
  match objGet? fields key with
  | none => some []
  | some (.arr items) =>
    items.mapM (fun j => match j with | .str s => some s | _ => none)
  | some _ => none

/-- Lines 278-300: conversion of one response item to a `HeuristicViolation`.
`none` models the `continue` of the per-item `except` branch. -/
def convertViolation (hid : HeuristicId) (item : PyJson) : Option HeuristicViolation :=
  match item with
  | .obj fields => do
    let sevRaw ← jsonGetStr fields "severity" "minor"
    let criterion_id ← jsonGetStr fields "criterion_id" (hid.value ++ ".0")
    let description ← jsonGetStr fields "description" "Unspecified violation"
    let affected ← jsonGetStrList fields "affected_elements"
    let recommendation ← jsonGetStr fields "recommendation" "Review and address this issue"
    some { heuristic_id := hid.value, criterion_id := criterion_id,
           severity := severityFromLower (lowerString sevRaw), description := description,
           affected_elements := affected, recommendation := recommendation }
  | _ => none

/-- Lines 261-302: the full parsing step of `_evaluate_with_llm` applied to a
top-level-parsed classifier response. Non-list shapes (after unwrapping)
yield the empty list (lines 272-274). -/
def parseViolations (hid : HeuristicId) (parsed : PyJson) : List HeuristicViolation :=
  match unwrapResponse parsed with
  | .arr items => items.filterMap (convertViolation hid)
  | _ => []

/-- `UIElement` (from `omniparser_client.py`); floats are modelled as `ℚ`. -/
structure UIElement where
  element_type : String
  bbox : List ℚ
  content : String
  interactivity : Bool

/-- `UIElementDetectionResult`: the evaluation engine only reads `elements`;
the image/layout metadata is opaque to the verified core. -/
structure UIElementDetectionResult where
  elements : List UIElement

/-- `HeuristicEvaluationEngine._evaluate_with_llm`, with the external LLM
call abstracted as `classify`. A `.error` from `classify` models the call
raising (or its payload failing `json.loads`), which the source re-raises
as `ValueError("AI Service Unavailable: ...")` on lines 304-306. -/
def evaluate_with_llm (classify : HeuristicId → Except String PyJson)
    (hid : HeuristicId) : Except String (List HeuristicViolation) :=
  match catalogueGet hid with
  | none => .ok []
  | some _ =>
    match classify hid with
    | .error e => .error ("AI Service Unavailable: " ++ e)
    | .ok parsed => .ok (parseViolations hid parsed)

/-- `HeuristicScore` (the `max_score` default is always used). -/
structure HeuristicScore where
  heuristic_id : String
  score : Int
  max_score : Int
  violations : List HeuristicViolation
  explanation : String
  llm_explanation : Option String

/-- `HeuristicEvaluationEngine.evaluate_heuristic`; `explain` abstracts
`_llm_explain_heuristic`, which catches its own exceptions and therefore
always returns (an optional narrative). -/
def evaluate_heuristic (classify : HeuristicId → Except String PyJson)
    (explain : HeuristicId → Int → List HeuristicViolation → Option String)
    (hid : HeuristicId) : Except String HeuristicScore :=
  match evaluate_with_llm classify hid with
  | .error e => .error e
  | .ok violations =>
    match calculate_score violations hid.value with
    | .error e => .error e
    | .ok (score, explanation) =>
      .ok { heuristic_id := hid.value, score := score, max_score := 100,
            violations := violations, explanation := explanation,
            llm_explanation := explain hid score violations }

/-- The fixed heuristic order of `evaluate_interface` (lines 485-496). -/
def heuristic_ids : List HeuristicId :=
  [.H1_VISIBILITY_OF_SYSTEM_STATUS,
   .H2_MATCH_BETWEEN_SYSTEM_AND_REAL_WORLD,
   .H3_USER_CONTROL_AND_FREEDOM,
   .H4_CONSISTENCY_AND_STANDARDS,
   .H5_ERROR_PREVENTION,
   .H6_RECOGNITION_RATHER_THAN_RECALL,
   .H7_FLEXIBILITY_AND_EFFICIENCY_OF_USE,
   .H8_AESTHETIC_AND_MINIMALIST_DESIGN,
   .H9_HELP_USERS_RECOGNIZE_RECOVER_FROM_ERRORS,
   .H10_HELP_AND_DOCUMENTATION]

/-- Line 510: `sum(1 for v in score.violations if v.severity == CRITICAL)`. -/
def countCritical (violations : List HeuristicViolation) : Nat :=
  (violations.filter (fun v => decide (v.severity = SeverityLevel.critical))).length

/-- The `for heuristic_id in heuristic_ids:` loop of `evaluate_interface`
(lines 502-510), threading `(heuristic_scores, total_violations,
critical_issues)`; an exception from a heuristic propagates. -/
def evalLoop (classify : HeuristicId → Except String PyJson)
    (explain : HeuristicId → Int → List HeuristicViolation → Option String) :
    List HeuristicId → List HeuristicScore × Nat × Nat →
      Except String (List HeuristicScore × Nat × Nat)
  | [], acc => .ok acc
  | hid :: rest, acc =>
    match evaluate_heuristic classify explain hid with
    | .error e => .error e
    | .ok score =>
      evalLoop classify explain rest
        (acc.1 ++ [score], acc.2.1 + score.violations.length,
         acc.2.2 + countCritical score.violations)

/-- Round-half-to-even on an exact rational, the rounding mode of Python
`round`. -/
def roundHalfEven (q : ℚ) : ℤ :=
  let n := ⌊q⌋
  let frac := q - n
  if frac < 1/2 then n
  else if 1/2 < frac then n + 1
  else if n % 2 = 0 then n else n + 1

/-- Python `round(x, 2)` on the exact-rational model of the float mean. -/
def pyRound2 (q : ℚ) : ℚ :=
  (roundHalfEven (q * 100) : ℚ) / 100

/-- `HeuristicEvaluationResult`; `evaluation_metadata` is modelled by its one
numeric component (`total_elements`), and the wall-clock timestamp is
outside the embedding. -/
structure HeuristicEvaluationResult where
  overall_score : ℚ
  heuristic_scores : List HeuristicScore
  total_violations : Nat
  critical_issues : Nat
  total_elements : Nat

/-- `HeuristicEvaluationEngine.evaluate_interface` (lines 476-531). -/
def evaluate_interface (classify : HeuristicId → Except String PyJson)
    (explain : HeuristicId → Int → List HeuristicViolation → Option String)
    (detection_result : UIElementDetectionResult) :
    Except String HeuristicEvaluationResult :=
  match evalLoop classify explain heuristic_ids ([], 0, 0) with
  | .error e => .error e
  | .ok acc =>
    let heuristic_scores := acc.1
    let overall_score : ℚ :=
      (heuristic_scores.map (fun hs => (hs.score : ℚ))).sum /
        (heuristic_scores.length : ℚ)
    .ok { overall_score := pyRound2 overall_score,
          heuristic_scores := heuristic_scores,
          total_violations := acc.2.1,
          critical_issues := acc.2.2,
          total_elements := detection_result.elements.length }

/-- The per-heuristic `HeuristicScore` a successful run produces (used to
phrase theorems about the orchestrator loop). -/
def heuristicScoreOf (classify : HeuristicId → Except String PyJson)
    (explain : HeuristicId → Int → List HeuristicViolation → Option String)
    (hid : HeuristicId) : HeuristicScore :=
  let violations := match classify hid with
    | .ok parsed => parseViolations hid parsed
    | .error _ => []
  { heuristic_id := hid.value, score := (scoreCore violations (nielsenDef hid)).1,
    max_score := 100, violations := violations,
    explanation := (scoreCore violations (nielsenDef hid)).2,
    llm_explanation := explain hid (scoreCore violations (nielsenDef hid)).1 violations }

/-- Tiny knowledge entry used in closed witnesses for the retriever. -/
def sampleEntry : KnowledgeEntry :=
  { id := "kb_x", category := "c", content := "x", heuristic_id := "H1",
    example_text := "e" }

/-- Concrete violation matching criterion `H1.1` (witness fixture). -/
def sampleViolationMatched : HeuristicViolation :=
  { heuristic_id := "H1", criterion_id := "H1.1", severity := .critical,
    description := "No loading indicator during async operation",
    affected_elements := [], recommendation := "Add a spinner" }

/-- Concrete violation whose criterion id matches no `H1` criterion
(witness fixture). -/
def sampleViolationUnmatched : HeuristicViolation :=
  { heuristic_id := "H1", criterion_id := "H1.99", severity := .critical,
    description := "Phantom criterion", affected_elements := [],
    recommendation := "Ignore" }

/-- Narrative generator that always declines (witness fixture). -/
def explainNone : HeuristicId → Int → List HeuristicViolation → Option String :=
  fun _ _ _ => none

/-- Detection result with no elements (witness fixture). -/
def emptyDetection : UIElementDetectionResult :=
  { elements := [] }

/-- Classifier answering the empty JSON array for every heuristic (witness
fixture). -/
def classifyEmptyArr : HeuristicId → Except String PyJson :=
  fun _ => .ok (.arr [])

/-- Classifier answering a top-level JSON string for every heuristic — a
malformed shape (witness fixture). -/
def classifyTopStr : HeuristicId → Except String PyJson :=
  fun _ => .ok (.str "unexpected")

/-- Classifier whose call always raises (witness fixture). -/
def classifyFail : HeuristicId → Except String PyJson :=
  fun _ => .error "timeout"

/-- Response item citing a criterion id no heuristic defines (witness
fixture). -/
def unmatchedViolationJson : PyJson :=
  .obj [("criterion_id", .str "H1.99"), ("severity", .str "critical"),
        ("description", .str "Phantom"), ("affected_elements", .arr []),
        ("recommendation", .str "Check")]

/-- Classifier reporting `unmatchedViolationJson` for every heuristic
(witness fixture). -/
def classifyUnmatched : HeuristicId → Except String PyJson :=
  fun _ => .ok (.arr [unmatchedViolationJson])

/-- The violation `unmatchedViolationJson` parses to for `H1` (witness
fixture). -/
def parsedUnmatchedViolation : HeuristicViolation :=
  { heuristic_id := "H1", criterion_id := "H1.99", severity := .critical,
    description := "Phantom", affected_elements := [],
    recommendation := "Check" }

section Theorems

/-- Enum value round trip: `HeuristicId(h.value)` returns `h`. -/
theorem ofValue?_value (h : HeuristicId) : HeuristicId.ofValue? h.value = some h := by
  cases h <;> rfl

/-- Every `HeuristicId` member is a key of `NIELSEN_HEURISTICS`. -/
theorem catalogueGet_eq (h : HeuristicId) : catalogueGet h = some (nielsenDef h) := by
  cases h <;> rfl

/-- For a valid heuristic id string, `calculate_score` returns the core
score computation on that heuristic\x27s definition. -/
theorem calculate_score_value (V : List HeuristicViolation) (h : HeuristicId) :
    calculate_score V h.value = .ok (scoreCore V (nielsenDef h)) := by
  simp [calculate_score, ofValue?_value, catalogueGet_eq]

/-- Generalized-accumulator form of the deduction component of the
`calculate_score` loop. -/
theorem scoreLoop_fst_go (hdef : HeuristicDef) (V : List HeuristicViolation)
    (acc : Nat × List String) :
    (V.foldl
      (fun acc violation =>
        match hdef.measurable_criteria.find?
            (fun c => decide (c.id = violation.criterion_id)) with
        | some criterion =>
            (acc.1 + weightsGet criterion.severity_weights violation.severity.value 1,
             acc.2 ++ [violation.severity.value ++ ": " ++ violation.description])
        | none => acc)
      acc).1 = acc.1 + totalDeductionSpec V hdef := by
  induction V generalizing acc with
  | nil => simp [totalDeductionSpec]
  | cons v V ih =>
    rw [List.foldl_cons, ih]
    simp only [totalDeductionSpec, List.map_cons, List.sum_cons]
    cases hdef.measurable_criteria.find? (fun c => decide (c.id = v.criterion_id)) with
    | none => simp [totalDeductionSpec]
    | some criterion => simp [totalDeductionSpec]; omega

/-- The accumulated `total_deduction` of the loop equals the declarative
sum over matched violations. -/
theorem scoreLoop_fst (hdef : HeuristicDef) (V : List HeuristicViolation) :
    (scoreLoop hdef V).1 = totalDeductionSpec V hdef := by
  simpa [scoreLoop] using scoreLoop_fst_go hdef V (0, [])

/-- The integer score produced by `scoreCore`. -/
theorem scoreCore_fst (V : List HeuristicViolation) (hdef : HeuristicDef) :
    (scoreCore V hdef).1 = max 0 (100 - (totalDeductionSpec V hdef : Int)) := by
  simp [scoreCore, scoreLoop_fst]

/-- Appending one violation adds exactly its matched weight (or nothing) to
the total deduction. -/
theorem totalDeductionSpec_append (V : List HeuristicViolation)
    (v : HeuristicViolation) (hdef : HeuristicDef) :
    totalDeductionSpec (V ++ [v]) hdef = totalDeductionSpec V hdef +
      (match hdef.measurable_criteria.find?
          (fun c => decide (c.id = v.criterion_id)) with
       | some c => weightsGet c.severity_weights v.severity.value 1
       | none => 0) := by
  simp [totalDeductionSpec]

/-- C1: for every violation list `V` and catalogue heuristic `H`,
`calculate_score(V, H)` returns `max(0, 100 - totalDeduction)` where
`totalDeduction` sums the matched criteria\x27s severity weights (default 1
for a missing severity key); the score is in `[0, 100]` and is `100` on the
empty list. -/
theorem calculate_score_spec (V : List HeuristicViolation) (h : HeuristicId) :
    calculate_score V h.value = .ok (scoreCore V (nielsenDef h)) ∧
    (scoreCore V (nielsenDef h)).1 =
      max 0 (100 - (totalDeductionSpec V (nielsenDef h) : Int)) ∧
    0 ≤ (scoreCore V (nielsenDef h)).1 ∧
    (scoreCore V (nielsenDef h)).1 ≤ 100 ∧
    (V = [] → (scoreCore V (nielsenDef h)).1 = 100) := by
  refine ⟨calculate_score_value V h, scoreCore_fst V (nielsenDef h), ?_, ?_, ?_⟩
  · rw [scoreCore_fst]; exact le_max_left _ _
  · rw [scoreCore_fst]
    have : (0 : Int) ≤ (totalDeductionSpec V (nielsenDef h) : Int) := Int.natCast_nonneg _
    omega
  · rintro rfl
    rw [scoreCore_fst]
    simp [totalDeductionSpec]

/-- Witness for `calculate_score_spec` at `V = []`, `H = H1`. -/
theorem calculate_score_spec_witness :
    (scoreCore ([] : List HeuristicViolation)
      (nielsenDef .H1_VISIBILITY_OF_SYSTEM_STATUS)).1 = 100 :=
  (calculate_score_spec [] .H1_VISIBILITY_OF_SYSTEM_STATUS).2.2.2.2 rfl

/-- C2 (code bug): for an unknown heuristic id string, `calculate_score`
raises `ValueError` from `HeuristicId(heuristic_id)` instead of returning
`(100, "No criteria defined")`; the graceful branch is dead code because
every `HeuristicId` member is a catalogue key. -/
theorem calculate_score_unknown_id_raises :
    (∀ V : List HeuristicViolation,
      calculate_score V "H99" =
        .error "ValueError: H99 is not a valid HeuristicId") ∧
    (∀ V : List HeuristicViolation,
      calculate_score V "H99" ≠ .ok (100, "No criteria defined")) := by
  constructor
  · intro V; rfl
  · intro V h
    have heval : calculate_score V "H99" =
        .error "ValueError: H99 is not a valid HeuristicId" := rfl
    rw [heval] at h
    exact Except.noConfusion h

/-- C8: appending a violation whose criterion id occurs in the heuristic\x27s
definition never increases the score. -/
theorem calculate_score_monotone (V : List HeuristicViolation)
    (v : HeuristicViolation) (h : HeuristicId)
    (_hmatch : ∃ c ∈ (nielsenDef h).measurable_criteria, c.id = v.criterion_id) :
    ∃ s₁ e₁ s₂ e₂, calculate_score V h.value = .ok (s₁, e₁) ∧
      calculate_score (V ++ [v]) h.value = .ok (s₂, e₂) ∧ s₂ ≤ s₁ := by
  refine ⟨(scoreCore V (nielsenDef h)).1, (scoreCore V (nielsenDef h)).2,
    (scoreCore (V ++ [v]) (nielsenDef h)).1, (scoreCore (V ++ [v]) (nielsenDef h)).2,
    calculate_score_value V h, calculate_score_value (V ++ [v]) h, ?_⟩
  rw [scoreCore_fst, scoreCore_fst, totalDeductionSpec_append]
  apply max_le_max (le_refl 0)
  have : totalDeductionSpec V (nielsenDef h) ≤ totalDeductionSpec V (nielsenDef h) +
      (match (nielsenDef h).measurable_criteria.find?
          (fun c => decide (c.id = v.criterion_id)) with
       | some c => weightsGet c.severity_weights v.severity.value 1
       | none => 0) := Nat.le_add_right _ _
  omega

/-- Witness for `calculate_score_monotone` with a concrete matched
violation of `H1.1`. -/
theorem calculate_score_monotone_witness :
    ∃ s₁ e₁ s₂ e₂,
      calculate_score [] (HeuristicId.H1_VISIBILITY_OF_SYSTEM_STATUS).value =
        .ok (s₁, e₁) ∧
      calculate_score ([] ++ [sampleViolationMatched])
        (HeuristicId.H1_VISIBILITY_OF_SYSTEM_STATUS).value = .ok (s₂, e₂) ∧
      s₂ ≤ s₁ :=
  calculate_score_monotone [] sampleViolationMatched
    .H1_VISIBILITY_OF_SYSTEM_STATUS (by decide)

/-- C9: appending a violation whose criterion id matches no criterion of
the heuristic leaves the score unchanged (the violation is silently
skipped, not reported as an error). -/
theorem calculate_score_unmatched_no_change (V : List HeuristicViolation)
    (v : HeuristicViolation) (h : HeuristicId)
    (hun : ∀ c ∈ (nielsenDef h).measurable_criteria, c.id ≠ v.criterion_id) :
    ∃ s e₁ e₂, calculate_score V h.value = .ok (s, e₁) ∧
      calculate_score (V ++ [v]) h.value = .ok (s, e₂) := by
  have hfind : (nielsenDef h).measurable_criteria.find?
      (fun c => decide (c.id = v.criterion_id)) = none := by
    rw [List.find?_eq_none]
    intro c hc
    simpa using hun c hc
  have hsame : (scoreCore (V ++ [v]) (nielsenDef h)).1 = (scoreCore V (nielsenDef h)).1 := by
    rw [scoreCore_fst, scoreCore_fst, totalDeductionSpec_append, hfind]
    simp
  exact ⟨(scoreCore V (nielsenDef h)).1, (scoreCore V (nielsenDef h)).2,
    (scoreCore (V ++ [v]) (nielsenDef h)).2, calculate_score_value V h,
    hsame ▸ calculate_score_value (V ++ [v]) h⟩

/-- Witness for `calculate_score_unmatched_no_change` with a concrete
unmatched violation citing `H1.99`. -/
theorem calculate_score_unmatched_no_change_witness :
    ∃ s e₁ e₂,
      calculate_score [sampleViolationMatched]
        (HeuristicId.H1_VISIBILITY_OF_SYSTEM_STATUS).value = .ok (s, e₁) ∧
      calculate_score ([sampleViolationMatched] ++ [sampleViolationUnmatched])
        (HeuristicId.H1_VISIBILITY_OF_SYSTEM_STATUS).value = .ok (s, e₂) :=
  calculate_score_unmatched_no_change [sampleViolationMatched]
    sampleViolationUnmatched .H1_VISIBILITY_OF_SYSTEM_STATUS (by decide)

/-- The descending-score comparator is transitive. -/
theorem scoreDescLe_trans (a b c : KnowledgeEntry × Nat)
    (hab : scoreDescLe a b) (hbc : scoreDescLe b c) : scoreDescLe a c := by
  simp only [scoreDescLe, decide_eq_true_eq] at *
  omega

/-- The descending-score comparator is total. -/
theorem scoreDescLe_total (a b : KnowledgeEntry × Nat) :
    scoreDescLe a b || scoreDescLe b a := by
  simp only [scoreDescLe, Bool.or_eq_true, decide_eq_true_eq]
  omega

/-- Every pair in `scoredEntries` carries the positive score of its entry. -/
theorem mem_scoredEntries (entries : List KnowledgeEntry) (query : String)
    (hid : Option String) (p : KnowledgeEntry × Nat)
    (hp : p ∈ scoredEntries entries query hid) :
    0 < p.2 ∧ p.2 = scoreEntry query hid p.1 := by
  simp only [scoredEntries, List.mem_filterMap] at hp
  obtain ⟨e, _, heq⟩ := hp
  by_cases hs : 0 < scoreEntry query hid e
  · rw [if_pos hs] at heq
    cases heq
    exact ⟨hs, rfl⟩
  · rw [if_neg hs] at heq
    cases heq

/-- C6: the retriever returns only entries scoring strictly above 0, returns
`min topK (number of scoring entries)` of them (so at most `topK`, and
exactly `topK` when enough entries score), ordered by score descending;
ties keep their original relative order in the stable sort. -/
theorem retrieve_relevant_context_spec (entries : List KnowledgeEntry)
    (query : String) (hid : Option String) (top_k : Nat) :
    (∀ e ∈ retrieve_relevant_context entries query hid top_k,
      0 < scoreEntry query hid e) ∧
    (retrieve_relevant_context entries query hid top_k).length =
      min top_k (scoredEntries entries query hid).length ∧
    (retrieve_relevant_context entries query hid top_k).Pairwise
      (fun a b => scoreEntry query hid b ≤ scoreEntry query hid a) ∧
    (∀ p q : KnowledgeEntry × Nat, p.2 = q.2 →
      List.Sublist [p, q] (scoredEntries entries query hid) →
      List.Sublist [p, q] ((scoredEntries entries query hid).mergeSort scoreDescLe)) := by
  refine ⟨?_, ?_, ?_, ?_⟩
  · intro e he
    simp only [retrieve_relevant_context, List.mem_map] at he
    obtain ⟨p, hp, rfl⟩ := he
    have hmem : p ∈ (scoredEntries entries query hid).mergeSort scoreDescLe :=
      List.take_subset _ _ hp
    have hsc := mem_scoredEntries entries query hid p (List.mem_mergeSort.mp hmem)
    omega
  · simp [retrieve_relevant_context, List.length_take, List.length_mergeSort]
  · have hsorted := List.sorted_mergeSort scoreDescLe_trans scoreDescLe_total
      (scoredEntries entries query hid)
    have htake := hsorted.sublist
      (List.take_sublist top_k ((scoredEntries entries query hid).mergeSort scoreDescLe))
    refine List.pairwise_map.mpr (htake.imp_of_mem ?_)
    intro a b ha hb hab
    have hamem := mem_scoredEntries entries query hid a
      (List.mem_mergeSort.mp (List.take_subset _ _ ha))
    have hbmem := mem_scoredEntries entries query hid b
      (List.mem_mergeSort.mp (List.take_subset _ _ hb))
    simp only [scoreDescLe, decide_eq_true_eq] at hab
    omega
  · intro p q hpq hsub
    exact List.pair_sublist_mergeSort scoreDescLe_trans scoreDescLe_total
      (by simp [scoreDescLe, hpq]) hsub

/-- Witness for `retrieve_relevant_context_spec` on a one-entry corpus with
`topK = 1`. -/
theorem retrieve_relevant_context_spec_witness :
    (retrieve_relevant_context [sampleEntry] "x" none 1).length =
      min 1 (scoredEntries [sampleEntry] "x" none).length :=
  (retrieve_relevant_context_spec [sampleEntry] "x" none 1).2.1

/-- C7 counterexample: with the filter supplied as the empty string, the
retriever still considers (and returns) entries whose heuristic id does not
match the filter, because `if heuristic_id:` treats the empty string as no
filter; under the claim the returned list would have to be empty. -/
theorem retrieve_empty_filter_counterexample :
    retrieve_relevant_context [sampleEntry] "x" (some "") 5 = [sampleEntry] ∧
    sampleEntry.heuristic_id ≠ "" := by
  have hscored : scoredEntries [sampleEntry] "x" (some "") = [(sampleEntry, 2)] := by
    decide
  constructor
  · simp [retrieve_relevant_context, hscored]
  · decide

/-- C7 (amended): with a non-empty filter, only entries whose heuristic id
equals the filter are considered, and the score is +3 for the filter match,
+2 when any whitespace-split lowercase query token is a substring of the
lowercased content, +1 likewise for the category (a logical OR over the
tokens); with no filter the +3 component is absent; an empty-string filter
behaves as if no filter were supplied. -/
theorem retrieve_scoring_corrected (entries : List KnowledgeEntry)
    (query f : String) (hf : f ≠ "") (e : KnowledgeEntry) :
    scoreEntry query (some f) e =
      (if e.heuristic_id = f then 3 else 0)
      + (if ∃ t ∈ splitWs (lowerChars query), hasSub (lowerChars e.content) t then 2 else 0)
      + (if ∃ t ∈ splitWs (lowerChars query), hasSub (lowerChars e.category) t then 1 else 0) ∧
    relevantEntries entries (some f) =
      entries.filter (fun x => decide (x.heuristic_id = f)) ∧
    scoreEntry query none e =
      (if ∃ t ∈ splitWs (lowerChars query), hasSub (lowerChars e.content) t then 2 else 0)
      + (if ∃ t ∈ splitWs (lowerChars query), hasSub (lowerChars e.category) t then 1 else 0) := by
  have hne : f.isEmpty = false := by
    cases hfi : f.isEmpty
    · rfl
    · exact absurd ((String.isEmpty_iff f).mp hfi) hf
  refine ⟨?_, ?_, ?_⟩
  · simp [scoreEntry, hne, List.any_eq_true]
  · simp [relevantEntries, hne]
  · simp [scoreEntry, List.any_eq_true]

/-- Witness for `retrieve_scoring_corrected` at a concrete non-empty
filter. -/
theorem retrieve_scoring_corrected_witness :
    scoreEntry "x" (some "H1") sampleEntry =
      (if sampleEntry.heuristic_id = "H1" then 3 else 0)
      + (if ∃ t ∈ splitWs (lowerChars "x"),
           hasSub (lowerChars sampleEntry.content) t then 2 else 0)
      + (if ∃ t ∈ splitWs (lowerChars "x"),
           hasSub (lowerChars sampleEntry.category) t then 1 else 0) :=
  (retrieve_scoring_corrected [sampleEntry] "x" "H1" (by decide) sampleEntry).1

/-- A classifier success makes `_evaluate_with_llm` return the parsed
violations. -/
theorem evaluate_with_llm_ok (classify : HeuristicId → Except String PyJson)
    (hid : HeuristicId) (j : PyJson) (hj : classify hid = .ok j) :
    evaluate_with_llm classify hid = .ok (parseViolations hid j) := by
  simp [evaluate_with_llm, catalogueGet_eq, hj]

/-- A classifier success makes `evaluate_heuristic` return the
`HeuristicScore` described by `heuristicScoreOf`. -/
theorem evaluate_heuristic_ok (classify : HeuristicId → Except String PyJson)
    (explain : HeuristicId → Int → List HeuristicViolation → Option String)
    (hid : HeuristicId) (hok : ∃ j, classify hid = .ok j) :
    evaluate_heuristic classify explain hid =
      .ok (heuristicScoreOf classify explain hid) := by
  obtain ⟨j, hj⟩ := hok
  simp [evaluate_heuristic, evaluate_with_llm_ok classify hid j hj,
    calculate_score_value, heuristicScoreOf, hj]

/-- The orchestrator loop under an everywhere-successful classifier:
appended scores and the two running counters, for any accumulator. -/
theorem evalLoop_ok (classify : HeuristicId → Except String PyJson)
    (explain : HeuristicId → Int → List HeuristicViolation → Option String)
    (ids : List HeuristicId) (hok : ∀ h ∈ ids, ∃ j, classify h = .ok j)
    (acc : List HeuristicScore × Nat × Nat) :
    evalLoop classify explain ids acc =
      .ok (acc.1 ++ ids.map (heuristicScoreOf classify explain),
           acc.2.1 + (ids.map (fun h =>
             (heuristicScoreOf classify explain h).violations.length)).sum,
           acc.2.2 + (ids.map (fun h =>
             countCritical (heuristicScoreOf classify explain h).violations)).sum) := by
  induction ids generalizing acc with
  | nil => simp [evalLoop]
  | cons hid rest ih =>
    have h1 := evaluate_heuristic_ok classify explain hid (hok hid (by simp))
    simp only [evalLoop, h1]
    rw [ih (fun h hh => hok h (by simp [hh]))]
    simp [List.append_assoc, Nat.add_assoc]

/-- The report a successful run of `evaluate_interface` produces. -/
theorem evaluate_interface_ok (classify : HeuristicId → Except String PyJson)
    (explain : HeuristicId → Int → List HeuristicViolation → Option String)
    (det : UIElementDetectionResult) (hok : ∀ h, ∃ j, classify h = .ok j) :
    evaluate_interface classify explain det =
      .ok { overall_score := pyRound2
              (((heuristic_ids.map (heuristicScoreOf classify explain)).map
                  (fun hs => (hs.score : ℚ))).sum /
                ((heuristic_ids.map (heuristicScoreOf classify explain)).length : ℚ)),
            heuristic_scores := heuristic_ids.map (heuristicScoreOf classify explain),
            total_violations := (heuristic_ids.map (fun h =>
              (heuristicScoreOf classify explain h).violations.length)).sum,
            critical_issues := (heuristic_ids.map (fun h =>
              countCritical (heuristicScoreOf classify explain h).violations)).sum,
            total_elements := det.elements.length } := by
  rw [evaluate_interface, evalLoop_ok classify explain heuristic_ids (fun h _ => hok h)]
  simp

/-- Every heuristic id occurs in the configured evaluation order. -/
theorem mem_heuristic_ids (h : HeuristicId) : h ∈ heuristic_ids := by
  cases h <;> simp [heuristic_ids]

/-- C3: a successful evaluation returns a report with exactly one entry per
configured heuristic in catalogue order `H1`-`H10`, an overall score equal
to the 2-decimal rounding of the mean of the per-heuristic scores, a total
violation count equal to the sum of the per-heuristic violation list
lengths, and a critical count equal to the number of critical violations
across all heuristic scores. -/
theorem evaluate_interface_spec (classify : HeuristicId → Except String PyJson)
    (explain : HeuristicId → Int → List HeuristicViolation → Option String)
    (det : UIElementDetectionResult) (hok : ∀ h, ∃ j, classify h = .ok j) :
    ∃ report, evaluate_interface classify explain det = .ok report ∧
      report.heuristic_scores.map (fun hs => hs.heuristic_id) =
        ["H1", "H2", "H3", "H4", "H5", "H6", "H7", "H8", "H9", "H10"] ∧
      report.overall_score = pyRound2
        ((report.heuristic_scores.map (fun hs => (hs.score : ℚ))).sum /
          (report.heuristic_scores.length : ℚ)) ∧
      report.total_violations =
        (report.heuristic_scores.map (fun hs => hs.violations.length)).sum ∧
      report.critical_issues =
        (report.heuristic_scores.map (fun hs => countCritical hs.violations)).sum := by
  refine ⟨_, evaluate_interface_ok classify explain det hok, ?_, rfl, ?_, ?_⟩
  · simp [List.map_map, heuristic_ids, heuristicScoreOf, HeuristicId.value]
  · simp [List.map_map]
    rfl
  · simp [List.map_map]
    rfl

/-- Witness for `evaluate_interface_spec` with a classifier returning the
empty array everywhere. -/
theorem evaluate_interface_spec_witness :
    ∃ report, evaluate_interface classifyEmptyArr explainNone emptyDetection =
        .ok report ∧
      report.heuristic_scores.map (fun hs => hs.heuristic_id) =
        ["H1", "H2", "H3", "H4", "H5", "H6", "H7", "H8", "H9", "H10"] ∧
      report.overall_score = pyRound2
        ((report.heuristic_scores.map (fun hs => (hs.score : ℚ))).sum /
          (report.heuristic_scores.length : ℚ)) ∧
      report.total_violations =
        (report.heuristic_scores.map (fun hs => hs.violations.length)).sum ∧
      report.critical_issues =
        (report.heuristic_scores.map (fun hs => countCritical hs.violations)).sum :=
  evaluate_interface_spec classifyEmptyArr explainNone emptyDetection
    (fun _ => ⟨.arr [], rfl⟩)

/-- C4: a classifier response that parses but has a malformed top-level
shape — a top-level string, or an object with none of the known wrapper
keys — yields an empty violation list, and an evaluation whose classifier
calls all succeed still returns a full report. -/
theorem malformed_response_yields_empty (hid : HeuristicId) (s : String)
    (fields : List (String × PyJson))
    (hfields : ∀ k ∈ responseWrapperKeys, objGet? fields k = none)
    (classify : HeuristicId → Except String PyJson)
    (explain : HeuristicId → Int → List HeuristicViolation → Option String)
    (det : UIElementDetectionResult) (hok : ∀ h, ∃ j, classify h = .ok j) :
    parseViolations hid (.str s) = [] ∧
    parseViolations hid (.obj fields) = [] ∧
    ∃ report, evaluate_interface classify explain det = .ok report ∧
      report.heuristic_scores.length = heuristic_ids.length := by
  refine ⟨rfl, ?_, ?_⟩
  · have hnone : responseWrapperKeys.findSome? (fun key => objGet? fields key) = none :=
      List.findSome?_eq_none_iff.mpr hfields
    simp [parseViolations, unwrapResponse, hnone]
  · exact ⟨_, evaluate_interface_ok classify explain det hok, by simp⟩

/-- Witness for `malformed_response_yields_empty` with a top-level string
response everywhere and an empty JSON object. -/
theorem malformed_response_yields_empty_witness :
    parseViolations .H1_VISIBILITY_OF_SYSTEM_STATUS (.str "unexpected") = [] ∧
    parseViolations .H1_VISIBILITY_OF_SYSTEM_STATUS (.obj []) = [] ∧
    ∃ report, evaluate_interface classifyTopStr explainNone emptyDetection =
        .ok report ∧
      report.heuristic_scores.length = heuristic_ids.length :=
  malformed_response_yields_empty .H1_VISIBILITY_OF_SYSTEM_STATUS "unexpected" []
    (fun _ _ => rfl) classifyTopStr explainNone emptyDetection
    (fun _ => ⟨.str "unexpected", rfl⟩)

/-- C5: a classifier call that raises makes the evaluation of that
heuristic surface the typed `AI Service Unavailable` error; it does not
succeed with an empty violation list, and `evaluate_heuristic` produces no
score (in particular no silent perfect 100). -/
theorem classifier_failure_surfaces_error
    (classify : HeuristicId → Except String PyJson)
    (explain : HeuristicId → Int → List HeuristicViolation → Option String)
    (hid : HeuristicId) (e : String) (hfail : classify hid = .error e) :
    evaluate_with_llm classify hid = .error ("AI Service Unavailable: " ++ e) ∧
    (∀ V : List HeuristicViolation, evaluate_with_llm classify hid ≠ .ok V) ∧
    (∀ hs : HeuristicScore, evaluate_heuristic classify explain hid ≠ .ok hs) := by
  have h1 : evaluate_with_llm classify hid =
      .error ("AI Service Unavailable: " ++ e) := by
    simp [evaluate_with_llm, catalogueGet_eq, hfail]
  refine ⟨h1, ?_, ?_⟩
  · intro V hV
    rw [h1] at hV
    exact Except.noConfusion hV
  · intro hs hres
    rw [evaluate_heuristic, h1] at hres
    exact Except.noConfusion hres

/-- Witness for `classifier_failure_surfaces_error` with a classifier that
always times out. -/
theorem classifier_failure_surfaces_error_witness :
    evaluate_with_llm classifyFail .H1_VISIBILITY_OF_SYSTEM_STATUS =
      .error ("AI Service Unavailable: " ++ "timeout") ∧
    (∀ V : List HeuristicViolation,
      evaluate_with_llm classifyFail .H1_VISIBILITY_OF_SYSTEM_STATUS ≠ .ok V) ∧
    (∀ hs : HeuristicScore,
      evaluate_heuristic classifyFail explainNone
        .H1_VISIBILITY_OF_SYSTEM_STATUS ≠ .ok hs) :=
  classifier_failure_surfaces_error classifyFail explainNone
    .H1_VISIBILITY_OF_SYSTEM_STATUS "timeout" rfl

/-- C10: a violation whose criterion id matches no criterion of its
heuristic is still counted: it stays in the returned `HeuristicScore`
violation list, the explanation counts the full list, it contributes to
`total_violations`, and to `critical_issues` when its severity is
critical. -/
theorem unmatched_violation_still_counted
    (classify : HeuristicId → Except String PyJson)
    (explain : HeuristicId → Int → List HeuristicViolation → Option String)
    (det : UIElementDetectionResult) (hok : ∀ h, ∃ j, classify h = .ok j)
    (hid : HeuristicId) (j : PyJson) (v : HeuristicViolation)
    (hj : classify hid = .ok j) (hv : v ∈ parseViolations hid j)
    (_hun : ∀ c ∈ (nielsenDef hid).measurable_criteria, c.id ≠ v.criterion_id) :
    ∃ report, evaluate_interface classify explain det = .ok report ∧
      (∃ hs, hs ∈ report.heuristic_scores ∧ hs.heuristic_id = hid.value ∧
        hs.violations = parseViolations hid j ∧ v ∈ hs.violations ∧
        ∃ parts, hs.explanation =
          "Score " ++ toString hs.score ++ "/100 - " ++
            toString hs.violations.length ++ " violations: " ++ parts) ∧
      report.total_violations =
        (report.heuristic_scores.map (fun hs => hs.violations.length)).sum ∧
      (v.severity = SeverityLevel.critical → 0 < report.critical_issues) := by
  have hviol : (heuristicScoreOf classify explain hid).violations =
      parseViolations hid j := by
    simp [heuristicScoreOf, hj]
  refine ⟨_, evaluate_interface_ok classify explain det hok, ?_, ?_, ?_⟩
  · refine ⟨heuristicScoreOf classify explain hid,
      List.mem_map_of_mem _ (mem_heuristic_ids hid), rfl, hviol, hviol ▸ hv,
      String.intercalate "; "
        (scoreLoop (nielsenDef hid) (parseViolations hid j)).2, ?_⟩
    simp [heuristicScoreOf, hj, scoreCore]
  · simp [List.map_map]
    rfl
  · intro hcrit
    have hmem : countCritical (heuristicScoreOf classify explain hid).violations ∈
        heuristic_ids.map (fun h =>
          countCritical (heuristicScoreOf classify explain h).violations) :=
      List.mem_map_of_mem _ (mem_heuristic_ids hid)
    have hle := List.le_sum_of_mem hmem
    have hpos : 0 < countCritical (heuristicScoreOf classify explain hid).violations := by
      rw [hviol]
      have : v ∈ (parseViolations hid j).filter
          (fun w => decide (w.severity = SeverityLevel.critical)) :=
        List.mem_filter.mpr ⟨hv, by simp [hcrit]⟩
      exact List.length_pos_of_mem this
    simp only [HeuristicEvaluationResult.critical_issues]
    omega

/-- Witness for `unmatched_violation_still_counted` with a concrete
unmatched critical violation reported for every heuristic. -/
theorem unmatched_violation_still_counted_witness :
    ∃ report, evaluate_interface classifyUnmatched explainNone emptyDetection =
        .ok report ∧
      (∃ hs, hs ∈ report.heuristic_scores ∧
        hs.heuristic_id = (HeuristicId.H1_VISIBILITY_OF_SYSTEM_STATUS).value ∧
        hs.violations = parseViolations .H1_VISIBILITY_OF_SYSTEM_STATUS
          (.arr [unmatchedViolationJson]) ∧
        parsedUnmatchedViolation ∈ hs.violations ∧
        ∃ parts, hs.explanation =
          "Score " ++ toString hs.score ++ "/100 - " ++
            toString hs.violations.length ++ " violations: " ++ parts) ∧
      report.total_violations =
        (report.heuristic_scores.map (fun hs => hs.violations.length)).sum ∧
      (parsedUnmatchedViolation.severity = SeverityLevel.critical →
        0 < report.critical_issues) :=
  unmatched_violation_still_counted classifyUnmatched explainNone emptyDetection
    (fun _ => ⟨.arr [unmatchedViolationJson], rfl⟩)
    .H1_VISIBILITY_OF_SYSTEM_STATUS (.arr [unmatchedViolationJson])
    parsedUnmatchedViolation rfl (by decide) (by decide)

end Theorems

end AIHeur
